import Mathlib

/-!
Shallow embedding of the Qdrant management facade (`src/qdrant_service.py`)
and its HTTP transport layer (`src/endpoints.py`).

The external Qdrant client SDK is modelled as an environment: every SDK call
is a value of type `Except Exc _` supplied by the environment (an `Exc` value
models a raised Python exception together with the string `str(e)`).  The
facade methods are embedded as total Lean functions over that environment,
mirroring the `try`/`except` control flow of the Python source; a method that
can raise returns `Except Exc _`, a method that catches everything returns a
plain result record.  Wall-clock reads (`time.time()`) are modelled as
rational-number inputs.
-/

set_option autoImplicit false

namespace RagQdrant

/-- Kind of a raised Python exception, as distinguished by the `except`
clauses of `check_connection`: the `UnexpectedResponse` of `qdrant_client`,
the builtin `ConnectionError`, or any other `Exception`. -/
inductive ExcKind where
  | unexpectedResponse
  | connectionError
  | other
  deriving DecidableEq, Repr

/-- A raised Python exception: its kind and the message `str(e)`. -/
structure Exc where
  kind : ExcKind
  msg : String
  deriving DecidableEq, Repr

/-- Member of the `models.Distance` enum of the qdrant client
(per the docstring of `create_collection`: Cosine, Euclid, Dot). -/
inductive Distance where
  | COSINE
  | EUCLID
  | DOT
  deriving DecidableEq, Repr

/-- The Python `str.upper()` method: upper-case every character (ASCII case mapping,
which is all the enum-member comparison needs). -/
def pyUpper (s : String) : String :=
  String.mk (s.data.map Char.toUpper)

/-- Embeds `getattr(models.Distance, distance.upper())` from
`QdrantService.create_collection` (src/qdrant_service.py line 170):
looks up the upper-cased distance string among the enum members and raises
`AttributeError` (an `ExcKind.other` exception) when it is not one. -/
def Distance.getattrUpper (distance : String) : Except Exc Distance :=
  if pyUpper distance = "COSINE" then .ok .COSINE
  else if pyUpper distance = "EUCLID" then .ok .EUCLID
  else if pyUpper distance = "DOT" then .ok .DOT
  else .error ⟨.other,
    "type object \x27Distance\x27 has no attribute \x27" ++ pyUpper distance ++ "\x27"⟩

/-- One element of `client.get_collections().collections`.  The Python code
reads `collection.name` and `getattr(collection, "vectors_count", 0)` /
`getattr(collection, "points_count", 0)`; the `getattr` defaults are folded
into the environment-supplied field values. -/
structure CollectionDescription where
  name : String
  vectors_count : Nat
  points_count : Nat
  deriving DecidableEq, Repr

/-- Result object of a successful `client.get_collections()` call; it always
has the `collections` attribute, so the `hasattr(server_info, "collections")`
test in `check_connection` is true. -/
structure CollectionsResponse where
  collections : List CollectionDescription
  deriving DecidableEq, Repr

/-- The `config.params.vector` data read by `get_collections_info`:
`getattr(..., "size", None)` and `getattr(..., "distance", None)`,
with the `getattr` defaults folded into `Option` fields. -/
structure VectorConfigParams where
  size : Option Nat
  distance : Option String
  deriving DecidableEq, Repr

/-- Result object of a successful `client.get_collection(name)` call, holding
exactly the attributes `get_collections_info` reads from it (`hasattr(ci,
"config")` is modelled by `config : Option _`). -/
structure CollectionInfo where
  vectors_count : Nat
  points_count : Nat
  config : Option VectorConfigParams
  status : String
  deriving DecidableEq, Repr

/-- The model, supplied by the environment, of a `QdrantClient` instance: the outcome of each
SDK call the facade makes.  An `Except.error e` outcome models the call
raising exception `e`. -/
structure QdrantClient where
  getCollectionsR : Except Exc CollectionsResponse
  getCollectionR : String → Except Exc CollectionInfo
  createCollectionR : String → Nat → Distance → Except Exc Unit

/-- The `server_info` dictionary built by a successful `check_connection`. -/
structure ServerInfo where
  collections_count : Nat
  total_vectors : Nat
  total_points : Nat
  deriving DecidableEq, Repr

/-- One per-collection dictionary in the `collections` list of `check_connection`. -/
structure CollectionSummary where
  name : String
  vectors_count : Nat
  points_count : Nat
  deriving DecidableEq, Repr

/-- The result dictionary of `QdrantService.check_connection`
(src/qdrant_service.py lines 38-45): its six keys. -/
structure ConnectionReport where
  status : String
  connection_string : String
  error : Option String
  server_info : Option ServerInfo
  collections : List CollectionSummary
  response_time_ms : Option ℚ
  deriving DecidableEq, Repr

/-- Embeds the Python call `round(x, 2)` on the latency value: round to the nearest
multiple of 1/100 (tie behaviour is irrelevant to the stated properties). -/
def pyRound2 (x : ℚ) : ℚ :=
  ((round (x * 100) : ℤ) : ℚ) / 100

/-- The error message `check_connection` stores for a caught exception,
following its three `except` clauses (src/qdrant_service.py lines 84-97). -/
def excErrorMsg (e : Exc) : String :=
  match e.kind with
  | .unexpectedResponse => "Qdrant server error: " ++ e.msg
  | .connectionError => "Connection failed: " ++ e.msg
  | .other => "Unexpected error: " ++ e.msg

/-- Embeds `QdrantService.check_connection` (src/qdrant_service.py lines
31-99).  `getClientRes` is the outcome of `self.get_client()` (the created or
cached client, or the exception the constructor raised); `startTime` and
`endTime` are the two `time.time()` reads (seconds).  Every exception of the
two client calls is caught and recorded in the `error` field; the function is
total, so the operation never raises. -/
def check_connection (connection_string : String)
    (getClientRes : Except Exc QdrantClient)
    (startTime endTime : ℚ) : ConnectionReport :=
  let base : ConnectionReport :=
    ⟨"disconnected", connection_string, none, none, [], none⟩
  match getClientRes with
  | .error e => { base with error := some (excErrorMsg e) }
  | .ok client =>
    match client.getCollectionsR with
    | .error e => { base with error := some (excErrorMsg e) }
    | .ok server_info =>
      let response_time : ℚ := (endTime - startTime) * 1000
      let collections : List CollectionSummary :=
        server_info.collections.map fun c => ⟨c.name, c.vectors_count, c.points_count⟩
      { base with
        status := "connected"
        server_info := some
          ⟨collections.length,
           (collections.map (fun col => col.vectors_count)).sum,
           (collections.map (fun col => col.points_count)).sum⟩
        collections := collections
        response_time_ms := some (pyRound2 response_time) }

/-- One entry of the list returned by `QdrantService.get_collections_info`:
either the detailed dictionary (name, counts, optional config, status), or —
when the per-collection detail call raised — the degraded dictionary
with just the name and the exception message (src/qdrant_service.py
lines 119-137). -/
inductive CollectionsInfoItem where
  | detailed (name : String) (vectors_count points_count : Nat)
      (config : Option VectorConfigParams) (status : String)
  | errored (name : String) (error : String)
  deriving DecidableEq, Repr

/-- The body of one iteration of the loop of `get_collections_info`
(src/qdrant_service.py lines 114-137): the inner `try`/`except` around
`client.get_collection(collection.name)` that catches every exception and
degrades the entry to the name plus the error string. -/
def detailItem (name : String) (r : Except Exc CollectionInfo) : CollectionsInfoItem :=
  match r with
  | .ok ci => .detailed name ci.vectors_count ci.points_count ci.config ci.status
  | .error e => .errored name e.msg

/-- Embeds `QdrantService.get_collections_info` (src/qdrant_service.py lines
101-143).  The outer `try`/`except` logs and re-raises (`raise`), so a failure
of `self.get_client()` or of the initial `client.get_collections()` call
propagates to the caller as `Except.error`; per-collection detail failures
are absorbed by `detailItem`. -/
def get_collections_info (getClientRes : Except Exc QdrantClient) :
    Except Exc (List CollectionsInfoItem) :=
  match getClientRes with
  | .error e => .error e
  | .ok client =>
    match client.getCollectionsR with
    | .error e => .error e
    | .ok resp =>
      .ok (resp.collections.map fun c => detailItem c.name (client.getCollectionR c.name))

/-- The success dictionary of `QdrantService.create_collection`
(src/qdrant_service.py lines 174-180). -/
structure CreateSuccess where
  collection_name : String
  vector_size : Nat
  distance : String
  message : String
  deriving DecidableEq, Repr

/-- The result of `QdrantService.create_collection`: the success dictionary,
or the failure dictionary `success=False` with an error string. -/
inductive CreateResult where
  | ok (r : CreateSuccess)
  | err (error : String)
  deriving DecidableEq, Repr

/-- Embeds `QdrantService.create_collection` (src/qdrant_service.py lines
145-191).  The `try` body acquires the client, evaluates
`getattr(models.Distance, distance.upper())` (which can raise
`AttributeError`), then issues the remote create call; the `except Exception`
clause turns any of these failures into the tagged failure dictionary, so the
function is total and never raises outward. -/
def create_collection (getClientRes : Except Exc QdrantClient)
    (collection_name : String) (vector_size : Nat) (distance : String) : CreateResult :=
  let attempt : Except Exc Unit :=
    match getClientRes with
    | .error e => .error e
    | .ok client =>
      match Distance.getattrUpper distance with
      | .error e => .error e
      | .ok d => client.createCollectionR collection_name vector_size d
  match attempt with
  | .ok _ =>
    .ok ⟨collection_name, vector_size, distance,
      "Collection \x27" ++ collection_name ++ "\x27 created successfully"⟩
  | .error e =>
    .err ("Failed to create collection \x27" ++ collection_name ++ "\x27: " ++ e.msg)

/-- The body returned by the `GET /qdrant/collections` handler on success
(src/endpoints.py lines 77-81).  `connection_string` holds the rendering of
`qdrant_service._connection_params` made by the handler. -/
structure CollectionsBody where
  collections : List CollectionsInfoItem
  total_collections : Nat
  connection_string : String
  deriving DecidableEq, Repr

/-- The outcome of the `GET /qdrant/collections` handler: a JSON body, or a
raised `HTTPException` with a status code and detail string. -/
inductive CollectionsEndpointResponse where
  | ok (body : CollectionsBody)
  | httpError (status_code : Nat) (detail : String)
  deriving DecidableEq, Repr

/-- Embeds the `GET /qdrant/collections` handler `get_qdrant_collections`
(src/endpoints.py lines 66-86): any exception propagating out of
`get_collections_info` is caught and mapped to `HTTPException(500, ...)`. -/
def get_qdrant_collections (connection_params : String)
    (getClientRes : Except Exc QdrantClient) : CollectionsEndpointResponse :=
  match get_collections_info getClientRes with
  | .ok cols => .ok ⟨cols, cols.length, connection_params⟩
  | .error e => .httpError 500 ("Failed to get collections: " ++ e.msg)

/-- The request body of `POST /qdrant/collections` (src/endpoints.py
lines 12-15). -/
structure CollectionCreate where
  name : String
  vector_size : Nat
  distance : String
  deriving DecidableEq, Repr

/-- The outcome of the `POST /qdrant/collections` handler: the success
dictionary, or a raised `HTTPException`. -/
inductive CreateEndpointResponse where
  | ok (r : CreateSuccess)
  | httpError (status_code : Nat) (detail : String)
  deriving DecidableEq, Repr

/-- Embeds the `POST /qdrant/collections` handler `create_qdrant_collection`
(src/endpoints.py lines 88-119): a facade result with `success=False` is
turned into `HTTPException(400, result["error"])`; since the facade never
raises, the defensive 500 branch is unreachable. -/
def create_qdrant_collection (getClientRes : Except Exc QdrantClient)
    (collection_data : CollectionCreate) : CreateEndpointResponse :=
  match create_collection getClientRes collection_data.name
      collection_data.vector_size collection_data.distance with
  | .ok r => .ok r
  | .err e => .httpError 400 e

/-- The JSON body returned (with HTTP 200) by the `GET /qdrant/status`
handler, in both its branches (src/endpoints.py lines 131-143); the keys
absent in one branch are `Option` fields. -/
structure StatusBody where
  status : String
  collections_count : Option Nat
  error : Option String
  connection_string : String
  message : String
  deriving DecidableEq, Repr

/-- The outcome of the `GET /qdrant/status` handler: an HTTP 200 JSON body,
or a raised `HTTPException` (which FastAPI would turn into an error status
such as 500). -/
inductive StatusEndpointResponse where
  | ok200 (body : StatusBody)
  | httpError (status_code : Nat) (detail : String)
  deriving DecidableEq, Repr

/-- Embeds the `GET /qdrant/status` handler `get_qdrant_status`
(src/endpoints.py lines 121-143): it calls `get_client()` and
`get_collections()` and catches every exception, returning the
`status="disconnected"` body with `error = str(e)` — always an HTTP 200
response, never a raised `HTTPException`. -/
def get_qdrant_status (connection_params : String)
    (getClientRes : Except Exc QdrantClient) : StatusEndpointResponse :=
  match getClientRes with
  | .error e =>
    .ok200 ⟨"disconnected", none, some e.msg, connection_params, "Qdrant is not accessible"⟩
  | .ok client =>
    match client.getCollectionsR with
    | .error e =>
      .ok200 ⟨"disconnected", none, some e.msg, connection_params, "Qdrant is not accessible"⟩
    | .ok resp =>
      .ok200 ⟨"connected", some resp.collections.length, none, connection_params,
        "Qdrant is running and accessible"⟩

/-- The mutable state of a `QdrantService` instance: its `_client` attribute
(src/qdrant_service.py line 17), `None` until the first successful
`get_client()` call. -/
structure QdrantServiceState where
  _client : Option QdrantClient

/-- Embeds `QdrantService.get_client` (src/qdrant_service.py lines 20-29).
`mkClient` is the outcome of the `QdrantClient(**self._connection_params)`
constructor call the method would make.  When `_client` is already set the
constructor is not invoked and the cached client is returned with the state
unchanged; when it is `None` the constructor runs, and on success its result
is stored and returned (on failure the exception is re-raised and the state
stays `None`). -/
def get_client (mkClient : Except Exc QdrantClient) (s : QdrantServiceState) :
    Except Exc (QdrantClient × QdrantServiceState) :=
  match s._client with
  | some c => .ok (c, s)
  | none =>
    match mkClient with
    | .ok c => .ok (c, ⟨some c⟩)
    | .error e => .error e

/-! ## Helper lemmas -/

theorem append_ne_empty_left (a b : String) (ha : a.length ≠ 0) : a ++ b ≠ "" := by
  intro hc
  apply ha
  have hlen := congrArg String.length hc
  rw [String.length_append] at hlen
  have h0 : ("" : String).length = 0 := rfl
  rw [h0] at hlen
  omega

theorem excErrorMsg_ne_empty (e : Exc) : excErrorMsg e ≠ "" := by
  unfold excErrorMsg
  rcases e with ⟨k, m⟩
  cases k <;> exact append_ne_empty_left _ _ (by decide)

theorem check_connection_raise_eq (cs : String) (e : Exc) (t0 t1 : ℚ) :
    check_connection cs (.error e) t0 t1 =
      ⟨"disconnected", cs, some (excErrorMsg e), none, [], none⟩ := rfl

theorem check_connection_error_eq (cs : String) (client : QdrantClient) (t0 t1 : ℚ) (e : Exc)
    (h : client.getCollectionsR = .error e) :
    check_connection cs (.ok client) t0 t1 =
      ⟨"disconnected", cs, some (excErrorMsg e), none, [], none⟩ := by
  simp [check_connection, h]

theorem check_connection_ok_eq (cs : String) (client : QdrantClient) (t0 t1 : ℚ)
    (resp : CollectionsResponse) (h : client.getCollectionsR = .ok resp) :
    check_connection cs (.ok client) t0 t1 =
      ⟨"connected", cs, none,
        some ⟨resp.collections.length,
          ((resp.collections.map fun c =>
            (⟨c.name, c.vectors_count, c.points_count⟩ : CollectionSummary)).map
              (fun col => col.vectors_count)).sum,
          ((resp.collections.map fun c =>
            (⟨c.name, c.vectors_count, c.points_count⟩ : CollectionSummary)).map
              (fun col => col.points_count)).sum⟩,
        resp.collections.map fun c => ⟨c.name, c.vectors_count, c.points_count⟩,
        some (pyRound2 ((t1 - t0) * 1000))⟩ := by
  simp [check_connection, h]

theorem pyRound2_nonneg (x : ℚ) (hx : 0 ≤ x) : 0 ≤ pyRound2 x := by
  unfold pyRound2
  have h1 : (0 : ℤ) ≤ round (x * 100) := by
    rw [round_eq]
    refine Int.floor_nonneg.mpr ?_
    have : (0 : ℚ) ≤ x * 100 := mul_nonneg hx (by norm_num)
    linarith
  have h2 : (0 : ℚ) ≤ ((round (x * 100) : ℤ) : ℚ) := by exact_mod_cast h1
  positivity

/-! ## Claim theorems -/

/-- C1: for every execution of `check_connection`, whatever failure the
underlying client calls raise (the client constructor raising, or
`get_collections` raising a server error, connection error, or any other
exception), the operation does not raise — it is a total function — and it
returns a report with `status = "disconnected"` and a non-null (indeed
non-empty) human-readable error string. -/
theorem check_connection_failure_reports_disconnected
    (cs : String) (γ : Except Exc QdrantClient) (t0 t1 : ℚ)
    (h : (∃ e, γ = .error e) ∨
         (∃ client e, γ = .ok client ∧ client.getCollectionsR = .error e)) :
    (check_connection cs γ t0 t1).status = "disconnected" ∧
    ∃ m, (check_connection cs γ t0 t1).error = some m ∧ m ≠ "" := by
  rcases h with ⟨e, rfl⟩ | ⟨client, e, rfl, hr⟩
  · rw [check_connection_raise_eq]
    exact ⟨rfl, excErrorMsg e, rfl, excErrorMsg_ne_empty e⟩
  · rw [check_connection_error_eq cs client t0 t1 e hr]
    exact ⟨rfl, excErrorMsg e, rfl, excErrorMsg_ne_empty e⟩

theorem check_connection_failure_reports_disconnected_witness :
    (check_connection "localhost:6333"
      (.error ⟨.connectionError, "connection refused"⟩) 0 0).status = "disconnected" ∧
    ∃ m, (check_connection "localhost:6333"
      (.error ⟨.connectionError, "connection refused"⟩) 0 0).error = some m ∧ m ≠ "" :=
  check_connection_failure_reports_disconnected "localhost:6333"
    (.error ⟨.connectionError, "connection refused"⟩) 0 0
    (Or.inl ⟨⟨.connectionError, "connection refused"⟩, rfl⟩)

/-- C7: for every successful run of `check_connection` (one whose report has
`status = "connected"`), given that the second `time.time()` read is at least
the first, the returned `response_time_ms` is a non-negative rational that is
a whole number of hundredths — i.e. rounded to two decimal places. -/
theorem check_connection_latency_rounded_nonneg
    (cs : String) (γ : Except Exc QdrantClient) (t0 t1 : ℚ)
    (hmono : t0 ≤ t1)
    (hconn : (check_connection cs γ t0 t1).status = "connected") :
    ∃ q : ℚ, (check_connection cs γ t0 t1).response_time_ms = some q ∧
      0 ≤ q ∧ ∃ n : ℤ, q = (n : ℚ) / 100 := by
  match γ with
  | .error e =>
    rw [check_connection_raise_eq] at hconn
    simp at hconn
  | .ok client =>
    match hr : client.getCollectionsR with
    | .error e =>
      rw [check_connection_error_eq cs client t0 t1 e hr] at hconn
      simp at hconn
    | .ok resp =>
      rw [check_connection_ok_eq cs client t0 t1 resp hr]
      refine ⟨pyRound2 ((t1 - t0) * 1000), rfl, ?_, round ((t1 - t0) * 1000 * 100), rfl⟩
      exact pyRound2_nonneg _ (mul_nonneg (by linarith) (by norm_num))

theorem check_connection_latency_rounded_nonneg_witness :
    ∃ q : ℚ, (check_connection "localhost:6333"
        (.ok ⟨.ok ⟨[]⟩, fun _ => .error ⟨.other, "x"⟩, fun _ _ _ => .ok ()⟩)
        0 1).response_time_ms = some q ∧
      0 ≤ q ∧ ∃ n : ℤ, q = (n : ℚ) / 100 :=
  check_connection_latency_rounded_nonneg "localhost:6333"
    (.ok ⟨.ok ⟨[]⟩, fun _ => .error ⟨.other, "x"⟩, fun _ _ _ => .ok ()⟩)
    0 1 (by norm_num) rfl

/-- C10: every `check_connection` report has status exactly `"connected"` or
`"disconnected"`; its error field is `none` iff the status is
`"connected"`; and a `"disconnected"` report carries no fragment of success
data: `server_info = none`, `collections = []`, `response_time_ms = none`. -/
theorem check_connection_status_error_invariant
    (cs : String) (γ : Except Exc QdrantClient) (t0 t1 : ℚ) :
    ((check_connection cs γ t0 t1).status = "connected" ∨
      (check_connection cs γ t0 t1).status = "disconnected") ∧
    ((check_connection cs γ t0 t1).error = none ↔
      (check_connection cs γ t0 t1).status = "connected") ∧
    ((check_connection cs γ t0 t1).status = "disconnected" →
      (check_connection cs γ t0 t1).server_info = none ∧
      (check_connection cs γ t0 t1).collections = [] ∧
      (check_connection cs γ t0 t1).response_time_ms = none) := by
  match γ with
  | .error e =>
    rw [check_connection_raise_eq]
    refine ⟨Or.inr rfl, ⟨fun h => ?_, fun h => ?_⟩, fun _ => ⟨rfl, rfl, rfl⟩⟩
    · simp at h
    · simp at h
  | .ok client =>
    match hr : client.getCollectionsR with
    | .error e =>
      rw [check_connection_error_eq cs client t0 t1 e hr]
      refine ⟨Or.inr rfl, ⟨fun h => ?_, fun h => ?_⟩, fun _ => ⟨rfl, rfl, rfl⟩⟩
      · simp at h
      · simp at h
    | .ok resp =>
      rw [check_connection_ok_eq cs client t0 t1 resp hr]
      refine ⟨Or.inl rfl, ⟨fun _ => rfl, fun _ => rfl⟩, fun h => ?_⟩
      simp at h

theorem check_connection_status_error_invariant_witness :
    (check_connection "localhost:6333" (.error ⟨.other, "boom"⟩) 0 0).server_info = none ∧
    (check_connection "localhost:6333" (.error ⟨.other, "boom"⟩) 0 0).collections = [] ∧
    (check_connection "localhost:6333" (.error ⟨.other, "boom"⟩) 0 0).response_time_ms = none :=
  (check_connection_status_error_invariant "localhost:6333"
    (.error ⟨.other, "boom"⟩) 0 0).2.2 rfl

/-- C8: the connection handle is created lazily by `get_client` on the first
operation that needs it, and is then reused: when `_client` is already set,
`get_client` returns exactly the cached handle and leaves the state unchanged
(it never replaces a non-null client, whatever the constructor outcome would
be); when `_client` is `None` and the constructor succeeds, the new handle is
stored, and every later `get_client` call on the resulting state returns that
same handle with the state unchanged — so at most one handle ever exists per
facade instance. -/
theorem get_client_lazy_reuse
    (mk : Except Exc QdrantClient) (s : QdrantServiceState) :
    (∀ c, s._client = some c → get_client mk s = .ok (c, s)) ∧
    (s._client = none → ∀ c, mk = .ok c →
      get_client mk s = .ok (c, ⟨some c⟩) ∧
      ∀ mk2, get_client mk2 ⟨some c⟩ = .ok (c, ⟨some c⟩)) := by
  constructor
  · intro c hc
    unfold get_client
    rw [hc]
  · intro hnone c hmk
    unfold get_client
    rw [hnone, hmk]
    exact ⟨rfl, fun mk2 => rfl⟩

theorem get_client_lazy_reuse_witness :
    get_client (.ok ⟨.ok ⟨[]⟩, fun _ => .error ⟨.other, "x"⟩, fun _ _ _ => .ok ()⟩)
        ⟨none⟩ =
      .ok (⟨.ok ⟨[]⟩, fun _ => .error ⟨.other, "x"⟩, fun _ _ _ => .ok ()⟩,
        ⟨some ⟨.ok ⟨[]⟩, fun _ => .error ⟨.other, "x"⟩, fun _ _ _ => .ok ()⟩⟩) ∧
    get_client (.error ⟨.connectionError, "down"⟩)
        ⟨some ⟨.ok ⟨[]⟩, fun _ => .error ⟨.other, "x"⟩, fun _ _ _ => .ok ()⟩⟩ =
      .ok (⟨.ok ⟨[]⟩, fun _ => .error ⟨.other, "x"⟩, fun _ _ _ => .ok ()⟩,
        ⟨some ⟨.ok ⟨[]⟩, fun _ => .error ⟨.other, "x"⟩, fun _ _ _ => .ok ()⟩⟩) := by
  have h := (get_client_lazy_reuse
    (.ok ⟨.ok ⟨[]⟩, fun _ => .error ⟨.other, "x"⟩, fun _ _ _ => .ok ()⟩) ⟨none⟩).2
    rfl ⟨.ok ⟨[]⟩, fun _ => .error ⟨.other, "x"⟩, fun _ _ _ => .ok ()⟩ rfl
  exact ⟨h.1, h.2 (.error ⟨.connectionError, "down"⟩)⟩

/-- C2: when the initial listing call of `get_collections_info` succeeds, the
operation returns (does not raise) one item per listed collection, in order;
a collection whose per-collection detail call fails contributes the degraded
`errored` item carrying its name and the exception message, and every other
collection is still processed and contributes its own item. -/
theorem get_collections_info_item_failure_isolated
    (γ : Except Exc QdrantClient) (client : QdrantClient) (resp : CollectionsResponse)
    (hγ : γ = .ok client) (hr : client.getCollectionsR = .ok resp) :
    ∃ items : List CollectionsInfoItem,
      get_collections_info γ = .ok items ∧
      items.length = resp.collections.length ∧
      (∀ (i : Nat) (c : CollectionDescription) (e : Exc),
        resp.collections[i]? = some c →
        client.getCollectionR c.name = .error e →
        items[i]? = some (.errored c.name e.msg)) ∧
      (∀ (i : Nat) (c : CollectionDescription) (ci : CollectionInfo),
        resp.collections[i]? = some c →
        client.getCollectionR c.name = .ok ci →
        items[i]? = some (.detailed c.name ci.vectors_count ci.points_count
          ci.config ci.status)) := by
  subst hγ
  refine ⟨resp.collections.map fun c => detailItem c.name (client.getCollectionR c.name),
    by simp [get_collections_info, hr], by simp, ?_, ?_⟩
  · intro i c e hi he
    rw [List.getElem?_map, hi]
    simp [detailItem, he]
  · intro i c ci hi hok
    rw [List.getElem?_map, hi]
    simp [detailItem, hok]

theorem get_collections_info_item_failure_isolated_witness :
    ∃ items : List CollectionsInfoItem,
      get_collections_info (.ok ⟨.ok ⟨[⟨"a", 0, 0⟩, ⟨"b", 5, 7⟩]⟩,
        fun n => if n = "a" then .error ⟨.unexpectedResponse, "boom"⟩
          else .ok ⟨5, 7, none, "green"⟩,
        fun _ _ _ => .ok ()⟩) = .ok items ∧
      items.length = ([⟨"a", 0, 0⟩, ⟨"b", 5, 7⟩] :
        List CollectionDescription).length ∧
      (∀ (i : Nat) (c : CollectionDescription) (e : Exc),
        ([⟨"a", 0, 0⟩, ⟨"b", 5, 7⟩] : List CollectionDescription)[i]? = some c →
        (if c.name = "a" then (.error ⟨.unexpectedResponse, "boom"⟩ :
            Except Exc CollectionInfo)
          else .ok ⟨5, 7, none, "green"⟩) = .error e →
        items[i]? = some (.errored c.name e.msg)) ∧
      (∀ (i : Nat) (c : CollectionDescription) (ci : CollectionInfo),
        ([⟨"a", 0, 0⟩, ⟨"b", 5, 7⟩] : List CollectionDescription)[i]? = some c →
        (if c.name = "a" then (.error ⟨.unexpectedResponse, "boom"⟩ :
            Except Exc CollectionInfo)
          else .ok ⟨5, 7, none, "green"⟩) = .ok ci →
        items[i]? = some (.detailed c.name ci.vectors_count ci.points_count
          ci.config ci.status)) :=
  get_collections_info_item_failure_isolated
    (.ok ⟨.ok ⟨[⟨"a", 0, 0⟩, ⟨"b", 5, 7⟩]⟩,
      fun n => if n = "a" then .error ⟨.unexpectedResponse, "boom"⟩
        else .ok ⟨5, 7, none, "green"⟩,
      fun _ _ _ => .ok ()⟩)
    ⟨.ok ⟨[⟨"a", 0, 0⟩, ⟨"b", 5, 7⟩]⟩,
      fun n => if n = "a" then .error ⟨.unexpectedResponse, "boom"⟩
        else .ok ⟨5, 7, none, "green"⟩,
      fun _ _ _ => .ok ()⟩
    ⟨[⟨"a", 0, 0⟩, ⟨"b", 5, 7⟩]⟩ rfl rfl

/-- C3: when the initial `get_collections` listing call of
`get_collections_info` raises, the operation does not return a value: the
exception propagates unchanged to the caller, and the `GET
/qdrant/collections` handler maps it to an `HTTPException` with status 500
whose detail wraps the exception message. -/
theorem get_collections_info_listing_failure_propagates
    (cp : String) (γ : Except Exc QdrantClient) (client : QdrantClient) (e : Exc)
    (hγ : γ = .ok client) (hr : client.getCollectionsR = .error e) :
    get_collections_info γ = .error e ∧
    get_qdrant_collections cp γ =
      .httpError 500 ("Failed to get collections: " ++ e.msg) := by
  subst hγ
  have h1 : get_collections_info (Except.ok client) = .error e := by
    simp [get_collections_info, hr]
  refine ⟨h1, ?_⟩
  unfold get_qdrant_collections
  rw [h1]

theorem get_collections_info_listing_failure_propagates_witness :
    get_collections_info (.ok ⟨.error ⟨.connectionError, "refused"⟩,
      fun _ => .error ⟨.other, "x"⟩, fun _ _ _ => .ok ()⟩) =
      .error ⟨.connectionError, "refused"⟩ ∧
    get_qdrant_collections "localhost:6333"
      (.ok ⟨.error ⟨.connectionError, "refused"⟩,
        fun _ => .error ⟨.other, "x"⟩, fun _ _ _ => .ok ()⟩) =
      .httpError 500 ("Failed to get collections: " ++ "refused") :=
  get_collections_info_listing_failure_propagates "localhost:6333"
    (.ok ⟨.error ⟨.connectionError, "refused"⟩,
      fun _ => .error ⟨.other, "x"⟩, fun _ _ _ => .ok ()⟩)
    ⟨.error ⟨.connectionError, "refused"⟩,
      fun _ => .error ⟨.other, "x"⟩, fun _ _ _ => .ok ()⟩
    ⟨.connectionError, "refused"⟩ rfl rfl

theorem createErr_ne_empty (n m : String) :
    "Failed to create collection \x27" ++ n ++ "\x27: " ++ m ≠ "" := by
  apply append_ne_empty_left
  rw [String.length_append, String.length_append]
  have h1 : ("Failed to create collection \x27" : String).length = 29 := rfl
  rw [h1]
  omega

theorem create_qdrant_collection_err (γ : Except Exc QdrantClient)
    (cd : CollectionCreate) (m : String)
    (h : create_collection γ cd.name cd.vector_size cd.distance = .err m) :
    create_qdrant_collection γ cd = .httpError 400 m := by
  unfold create_qdrant_collection
  rw [h]

/-- C4: for every input, `create_collection` does not raise outward: it is a
total function whose result is always either the success dictionary or the
tagged failure dictionary with a non-empty error message; and whenever the
client constructor, the distance-metric `getattr` dispatch, or the remote
create call raises, the result is the tagged failure dictionary wrapping the
exception message. -/
theorem create_collection_returns_tagged_result
    (γ : Except Exc QdrantClient) (n : String) (sz : Nat) (d : String) :
    ((∃ r : CreateSuccess, create_collection γ n sz d = .ok r) ∨
      (∃ m, m ≠ "" ∧ create_collection γ n sz d = .err m)) ∧
    (∀ e : Exc,
      (γ = .error e ∨
       (∃ client, γ = .ok client ∧ Distance.getattrUpper d = .error e) ∨
       (∃ client dd, γ = .ok client ∧ Distance.getattrUpper d = .ok dd ∧
          client.createCollectionR n sz dd = .error e)) →
      create_collection γ n sz d =
        .err ("Failed to create collection \x27" ++ n ++ "\x27: " ++ e.msg)) := by
  constructor
  · cases γ with
    | error e => exact Or.inr ⟨_, createErr_ne_empty n e.msg, rfl⟩
    | ok client =>
      cases hd : Distance.getattrUpper d with
      | error e =>
        refine Or.inr ⟨_, createErr_ne_empty n e.msg, ?_⟩
        simp [create_collection, hd]
      | ok dd =>
        cases hc : client.createCollectionR n sz dd with
        | error e =>
          refine Or.inr ⟨_, createErr_ne_empty n e.msg, ?_⟩
          simp [create_collection, hd, hc]
        | ok u =>
          refine Or.inl ⟨⟨n, sz, d,
            "Collection \x27" ++ n ++ "\x27 created successfully"⟩, ?_⟩
          simp [create_collection, hd, hc]
  · rintro e (rfl | ⟨client, rfl, hd⟩ | ⟨client, dd, rfl, hd, hc⟩)
    · rfl
    · simp [create_collection, hd]
    · simp [create_collection, hd, hc]

theorem create_collection_returns_tagged_result_witness :
    create_collection (.error ⟨.connectionError, "down"⟩) "docs" 3 "Cosine" =
      .err ("Failed to create collection \x27" ++ "docs" ++ "\x27: " ++ "down") :=
  (create_collection_returns_tagged_result
    (.error ⟨.connectionError, "down"⟩) "docs" 3 "Cosine").2
    ⟨.connectionError, "down"⟩ (Or.inl rfl)

/-- C5: for every call of `create_collection` whose upper-cased distance
string is not a `Distance` enum member, the facade returns the
tagged failure dictionary (with a non-empty message) rather than raising, and
the `POST /qdrant/collections` handler converts this reported failure into an
`HTTPException` with status 400. -/
theorem create_collection_unknown_distance_http_400
    (γ : Except Exc QdrantClient) (n : String) (sz : Nat) (d : String)
    (hd : ∃ e, Distance.getattrUpper d = .error e) :
    ∃ m, m ≠ "" ∧ create_collection γ n sz d = .err m ∧
      create_qdrant_collection γ ⟨n, sz, d⟩ = .httpError 400 m := by
  obtain ⟨e, he⟩ := hd
  cases γ with
  | error e0 =>
    have hcc : create_collection (Except.error e0) n sz d =
        .err ("Failed to create collection \x27" ++ n ++ "\x27: " ++ e0.msg) := rfl
    exact ⟨_, createErr_ne_empty n e0.msg, hcc,
      create_qdrant_collection_err _ ⟨n, sz, d⟩ _ hcc⟩
  | ok client =>
    have hcc : create_collection (Except.ok client) n sz d =
        .err ("Failed to create collection \x27" ++ n ++ "\x27: " ++ e.msg) := by
      simp [create_collection, he]
    exact ⟨_, createErr_ne_empty n e.msg, hcc,
      create_qdrant_collection_err _ ⟨n, sz, d⟩ _ hcc⟩

theorem create_collection_unknown_distance_http_400_witness :
    ∃ m, m ≠ "" ∧
      create_collection
        (.ok ⟨.ok ⟨[]⟩, fun _ => .error ⟨.other, "x"⟩, fun _ _ _ => .ok ()⟩)
        "docs" 384 "Manhattan" = .err m ∧
      create_qdrant_collection
        (.ok ⟨.ok ⟨[]⟩, fun _ => .error ⟨.other, "x"⟩, fun _ _ _ => .ok ()⟩)
        ⟨"docs", 384, "Manhattan"⟩ = .httpError 400 m :=
  create_collection_unknown_distance_http_400
    (.ok ⟨.ok ⟨[]⟩, fun _ => .error ⟨.other, "x"⟩, fun _ _ _ => .ok ()⟩)
    "docs" 384 "Manhattan"
    ⟨⟨.other, "type object \x27Distance\x27 has no attribute \x27MANHATTAN\x27"⟩, rfl⟩

/-- C9: a call `create_collection "docs" 384 "Cosine"` in which the client is
available and the remote create call succeeds returns the success dictionary
with `success = True`, `collection_name = "docs"`, `vector_size = 384`, and
`distance = "Cosine"` — the original, un-normalized distance string the
caller passed. -/
theorem create_collection_success_shape
    (γ : Except Exc QdrantClient) (client : QdrantClient)
    (hγ : γ = .ok client)
    (hc : client.createCollectionR "docs" 384 Distance.COSINE = .ok ()) :
    create_collection γ "docs" 384 "Cosine" =
      .ok ⟨"docs", 384, "Cosine", "Collection \x27docs\x27 created successfully"⟩ := by
  subst hγ
  have hd : Distance.getattrUpper "Cosine" = .ok .COSINE := rfl
  simp [create_collection, hd, hc]

theorem create_collection_success_shape_witness :
    create_collection
      (.ok ⟨.ok ⟨[]⟩, fun _ => .error ⟨.other, "x"⟩, fun _ _ _ => .ok ()⟩)
      "docs" 384 "Cosine" =
      .ok ⟨"docs", 384, "Cosine", "Collection \x27docs\x27 created successfully"⟩ :=
  create_collection_success_shape
    (.ok ⟨.ok ⟨[]⟩, fun _ => .error ⟨.other, "x"⟩, fun _ _ _ => .ok ()⟩)
    ⟨.ok ⟨[]⟩, fun _ => .error ⟨.other, "x"⟩, fun _ _ _ => .ok ()⟩
    rfl rfl

/-- C6 counterexample: the `GET /qdrant/status` handler stores `str(e)`
verbatim as the `error` field, so a failing run whose exception has an empty
message yields `error = some ""` — a run in which the client acquisition
fails yet the body does NOT carry a non-empty error string, refuting the
claim as stated (the status and HTTP-200 parts do hold). -/
theorem quick_status_empty_error_possible :
    get_qdrant_status "localhost:6333" (.error ⟨.connectionError, ""⟩) =
      .ok200 ⟨"disconnected", none, some "", "localhost:6333",
        "Qdrant is not accessible"⟩ ∧
    ¬ ∃ m, (StatusBody.mk "disconnected" none (some "") "localhost:6333"
        "Qdrant is not accessible").error = some m ∧ m ≠ "" := by
  refine ⟨rfl, ?_⟩
  rintro ⟨m, hm, hne⟩
  exact hne (Option.some.inj hm).symm

/-- C6 (amended): for every run of the `GET /qdrant/status` handler in which
acquiring the client or the list-collections call fails with exception `e`,
the handler returns — as an HTTP 200 body, never a raised `HTTPException`
(so never HTTP 500) — `status = "disconnected"` with `error` equal to the
exception message `str(e)` (hence non-empty whenever that message is
non-empty). -/
theorem quick_status_failure_reports_disconnected
    (cp : String) (γ : Except Exc QdrantClient) (e : Exc)
    (h : γ = .error e ∨ ∃ client, γ = .ok client ∧ client.getCollectionsR = .error e) :
    get_qdrant_status cp γ =
      .ok200 ⟨"disconnected", none, some e.msg, cp, "Qdrant is not accessible"⟩ := by
  rcases h with rfl | ⟨client, rfl, hr⟩
  · rfl
  · simp [get_qdrant_status, hr]

theorem quick_status_failure_reports_disconnected_witness :
    get_qdrant_status "localhost:6333" (.error ⟨.connectionError, "refused"⟩) =
      .ok200 ⟨"disconnected", none, some "refused", "localhost:6333",
        "Qdrant is not accessible"⟩ :=
  quick_status_failure_reports_disconnected "localhost:6333"
    (.error ⟨.connectionError, "refused"⟩) ⟨.connectionError, "refused"⟩
    (Or.inl rfl)

end RagQdrant
